import Mathlib

/-!
Verification development for the weekly SRE/AI digest generator
(`src/sre_ai_report_generator.py`).

The script queries a generative-AI HTTP endpoint once per report section,
extracts a JSON payload embedded in the raw model output, normalizes each
section item against a fixed field schema, and aggregates the sections into
one report. The definitions below are a shallow embedding of that code:

* `Json` / `Json.parse` model the `json.loads` parser used by the script
  (numbers are kept as their source lexeme, since the script never inspects
  numeric values);
* `pyFind` / `pyRfind` model Python `str.find` / `str.rfind` (with `none`
  standing for the `-1` result);
* `parseGeminiResponse` models `_parse_gemini_response`;
* `geminiLoop` / `geminiApiCall` model the retry loop of `_gemini_api_call`,
  with the environment abstracting the HTTP outcome of each attempt;
* `sreDynamicsProperties`, `failureIncidentProperties`,
  `aiBusinessProperties` model the per-item normalization blocks;
* `mainRun` models the sequential orchestration in `main`.

Note that the characters code 0x7b and 0x7d are the opening and closing
curly braces.
-/

namespace SreReport

/-- Model of a parsed JSON value as produced by `json.loads`. Numbers keep
their source lexeme (the script never looks inside numbers), objects keep
their fields in source order. -/
inductive Json where
  | null : Json
  | bool (b : Bool) : Json
  | num (lexeme : String) : Json
  | str (s : String) : Json
  | arr (elems : List Json) : Json
  | obj (fields : List (String × Json)) : Json

/-- Whitespace skipping as in the JSON grammar (space, tab, newline, CR). -/
def skipWs : List Char → List Char
  | [] => []
  | c :: rest =>
    if c = ' ' ∨ c = '\t' ∨ c = '\n' ∨ c = '\r' then skipWs rest else c :: rest

/-- Single-character string escapes of JSON. -/
def escChar : Char → Option Char
  | '\"' => some '\"'
  | '\\' => some '\\'
  | '/' => some '/'
  | 'b' => some (Char.ofNat 8)
  | 'f' => some (Char.ofNat 12)
  | 'n' => some '\n'
  | 'r' => some (Char.ofNat 13)
  | 't' => some '\t'
  | _ => none

/-- Value of a hexadecimal digit. -/
def hexVal (c : Char) : Option Nat :=
  if '0' ≤ c ∧ c ≤ '9' then some (c.toNat - '0'.toNat)
  else if 'a' ≤ c ∧ c ≤ 'f' then some (c.toNat - 'a'.toNat + 10)
  else if 'A' ≤ c ∧ c ≤ 'F' then some (c.toNat - 'A'.toNat + 10)
  else none

/-- JSON string body parser (the opening quote is already consumed). Returns
the content characters and the remaining input. Raw control characters are
rejected, as in the strict mode of `json.loads`. -/
def parseStringBody : List Char → Option (List Char × List Char)
  | [] => none
  | '\"' :: rest => some ([], rest)
  | '\\' :: rest =>
    match rest with
    | [] => none
    | 'u' :: h1 :: h2 :: h3 :: h4 :: rest2 =>
      match hexVal h1, hexVal h2, hexVal h3, hexVal h4 with
      | some a, some b, some c, some d =>
        let n := ((a * 16 + b) * 16 + c) * 16 + d
        if n < 55296 ∨ 57344 ≤ n then
          (parseStringBody rest2).map (fun p => (Char.ofNat n :: p.1, p.2))
        else none
      | _, _, _, _ => none
    | c :: rest2 =>
      match escChar c with
      | some e => (parseStringBody rest2).map (fun p => (e :: p.1, p.2))
      | none => none
  | c :: rest =>
    if c.toNat < 32 then none
    else (parseStringBody rest).map (fun p => (c :: p.1, p.2))

/-- Integer part of a JSON number: `0`, or a nonzero digit followed by
digits (no leading zeros, as in strict JSON). -/
def parseIntPart : List Char → Option (List Char × List Char)
  | [] => none
  | '0' :: rest => some (['0'], rest)
  | c :: rest =>
    if c.isDigit then some (c :: rest.takeWhile Char.isDigit, rest.dropWhile Char.isDigit)
    else none

/-- Optional fractional part `.digits` of a JSON number. -/
def parseFracPart (s : List Char) : Option (List Char × List Char) :=
  match s with
  | '.' :: rest =>
    let ds := rest.takeWhile Char.isDigit
    if ds = [] then none else some ('.' :: ds, rest.dropWhile Char.isDigit)
  | _ => some ([], s)

/-- Optional exponent part `e[+-]digits` of a JSON number. -/
def parseExpPart (s : List Char) : Option (List Char × List Char) :=
  match s with
  | e :: rest =>
    if e = 'e' ∨ e = 'E' then
      match rest with
      | sgn :: rest2 =>
        if sgn = '+' ∨ sgn = '-' then
          let ds := rest2.takeWhile Char.isDigit
          if ds = [] then none else some (e :: sgn :: ds, rest2.dropWhile Char.isDigit)
        else
          let ds := rest.takeWhile Char.isDigit
          if ds = [] then none else some (e :: ds, rest.dropWhile Char.isDigit)
      | [] => none
    else some ([], s)
  | [] => some ([], s)

/-- Full JSON number lexeme: optional minus, integer part, optional
fraction, optional exponent. Returns the lexeme and the rest. -/
def parseNumber (s : List Char) : Option (List Char × List Char) :=
  match s with
  | '-' :: rest =>
    match parseIntPart rest with
    | none => none
    | some (ip, r1) =>
      match parseFracPart r1 with
      | none => none
      | some (fp, r2) =>
        match parseExpPart r2 with
        | none => none
        | some (ep, r3) => some ('-' :: (ip ++ fp ++ ep), r3)
  | _ =>
    match parseIntPart s with
    | none => none
    | some (ip, r1) =>
      match parseFracPart r1 with
      | none => none
      | some (fp, r2) =>
        match parseExpPart r2 with
        | none => none
        | some (ep, r3) => some (ip ++ fp ++ ep, r3)

mutual

/-- Recursive-descent JSON value parser with explicit fuel (the fuel bounds
the recursion depth; `Json.parse` supplies enough fuel for any input). -/
def parseValue : Nat → List Char → Option (Json × List Char)
  | 0, _ => none
  | fuel + 1, s =>
    match skipWs s with
    | [] => none
    | '\x7b' :: rest =>
      match skipWs rest with
      | '\x7d' :: r2 => some (.obj [], r2)
      | r2 => (parseMembers fuel r2).map (fun p => (.obj p.1, p.2))
    | '[' :: rest =>
      match skipWs rest with
      | ']' :: r2 => some (.arr [], r2)
      | r2 => (parseElems fuel r2).map (fun p => (.arr p.1, p.2))
    | '\"' :: rest => (parseStringBody rest).map (fun p => (.str (String.mk p.1), p.2))
    | 't' :: 'r' :: 'u' :: 'e' :: rest => some (.bool true, rest)
    | 'f' :: 'a' :: 'l' :: 's' :: 'e' :: rest => some (.bool false, rest)
    | 'n' :: 'u' :: 'l' :: 'l' :: rest => some (.null, rest)
    | s2 => (parseNumber s2).map (fun p => (.num (String.mk p.1), p.2))

/-- Parser for the members of a JSON object, after the opening brace and
any whitespace; requires at least one member. -/
def parseMembers : Nat → List Char → Option (List (String × Json) × List Char)
  | 0, _ => none
  | fuel + 1, s =>
    match s with
    | '\"' :: rest =>
      match parseStringBody rest with
      | none => none
      | some (key, r1) =>
        match skipWs r1 with
        | ':' :: r2 =>
          match parseValue fuel r2 with
          | none => none
          | some (v, r3) =>
            match skipWs r3 with
            | ',' :: r4 =>
              (parseMembers fuel (skipWs r4)).map
                (fun p => ((String.mk key, v) :: p.1, p.2))
            | '\x7d' :: r4 => some ([(String.mk key, v)], r4)
            | _ => none
        | _ => none
    | _ => none

/-- Parser for the elements of a JSON array, after the opening bracket and
any whitespace; requires at least one element. -/
def parseElems : Nat → List Char → Option (List Json × List Char)
  | 0, _ => none
  | fuel + 1, s =>
    match parseValue fuel s with
    | none => none
    | some (v, r) =>
      match skipWs r with
      | ',' :: r2 => (parseElems fuel r2).map (fun p => (v :: p.1, p.2))
      | ']' :: r2 => some ([v], r2)
      | _ => none

end

/-- Model of `json.loads`: strict parse of a complete JSON document, with
only whitespace allowed around the single top-level value. Returns `none`
where `json.loads` raises `json.JSONDecodeError`. -/
def Json.parse (s : String) : Option Json :=
  match parseValue (2 * s.toList.length + 2) s.toList with
  | some (v, rest) => if skipWs rest = [] then some v else none
  | none => none

/-- Model of Python `str.find` restricted to a single character: index of
the first occurrence, `none` in place of the `-1` result. -/
def pyFind : List Char → Char → Option Nat
  | [], _ => none
  | a :: rest, c => if a = c then some 0 else (pyFind rest c).map (· + 1)

/-- Model of Python `str.rfind` restricted to a single character: index of
the last occurrence, `none` in place of the `-1` result. -/
def pyRfind : List Char → Char → Option Nat
  | [], _ => none
  | a :: rest, c =>
    match pyRfind rest c with
    | some i => some (i + 1)
    | none => if a = c then some 0 else none

/-- The slice `raw[i : j + 1]` taken by `_parse_gemini_response` between the
first opening brace and the last closing brace (Python slice semantics:
an empty result when the bounds cross). -/
def sliceSpan (s : List Char) (i j : Nat) : List Char :=
  (s.drop i).take (j + 1 - i)

/-- The excerpt of the raw text included in the failure notification email:
`raw_text[:2000]`. -/
def excerptOf (raw : String) : String :=
  String.mk (raw.toList.take 2000)

/-- Outcome of `_parse_gemini_response`. `noInput` is the early `return None`
taken for a falsy input (no notification, nothing logged); the two failure
constructors record the text printed in full to the log and the excerpt
included in the notification email, and correspond to the caught
`ValueError` (no JSON structure found) and `json.JSONDecodeError`
(slice fails to parse) respectively. -/
inductive ParseResult where
  | success (data : Json) : ParseResult
  | noInput : ParseResult
  | noJsonFound (logText emailExcerpt : String) : ParseResult
  | malformedJson (logText emailExcerpt : String) : ParseResult

/-- Model of `_parse_gemini_response` (lines 146-168 of the script): falsy
input returns `None` at once; otherwise slice from the first opening brace
to the last closing brace and strictly parse the slice; a missing brace is
the `ValueError` branch and a failed parse the `JSONDecodeError` branch,
both caught by the same handler, which logs the full raw text and sends a
notification carrying the first 2000 characters. -/
def parseGeminiResponse (raw : String) : ParseResult :=
  if raw = "" then .noInput
  else
    match pyFind raw.toList '\x7b', pyRfind raw.toList '\x7d' with
    | some i, some j =>
      match Json.parse (String.mk (sliceSpan raw.toList i j)) with
      | some v => .success v
      | none => .malformedJson raw (excerptOf raw)
    | _, _ => .noJsonFound raw (excerptOf raw)

/-- Shape of the JSON body of one HTTP response from the generation
endpoint, as far as `_gemini_api_call` inspects it (lines 110-117):
the first candidate and its first content part's text field.
`candidatesEmpty` and `partsEmpty` are the shapes on which the subscript
`[0]` raises `IndexError` (an exception that is neither a
`RequestException` nor a `ValueError`). -/
inductive Body where
  | candidatesAbsent : Body
  | candidatesEmpty : Body
  | partsEmpty : Body
  | textAbsent : Body
  | withText (s : String) : Body
deriving DecidableEq

/-- Outcome of one HTTP attempt as seen by the script: a transport-level
`RequestException` (connection error or timeout), or a response with a
status code and a body shape. -/
inductive AttemptOutcome where
  | transportError : AttemptOutcome
  | http (status : Nat) (body : Body) : AttemptOutcome
deriving DecidableEq

/-- The two failure notifications `_gemini_api_call` can send: the
API-error mail after the final transient failure (line 131) and the
content-error mail for a malformed response envelope (line 137). -/
inductive Notif where
  | apiError : Notif
  | contentError : Notif
deriving DecidableEq

/-- Observable trace of one `_gemini_api_call` run: how many HTTP requests
were issued, the sleep durations performed between attempts, the failure
notifications sent, and the returned value (`none` models `return None`). -/
structure CallTrace where
  attempts : Nat
  sleeps : List Nat
  notifs : List Notif
  result : Option String
deriving DecidableEq

/-- Exception class raised by the content-extraction block, used to select
the `except` clause that handles it. -/
inductive ExnClass where
  | valueErrorExn : ExnClass
  | otherExn : ExnClass
deriving DecidableEq

/-- Content extraction of lines 110-121: a missing or falsy candidate and a
missing or empty text part raise `ValueError`; an empty `candidates` or
`parts` list raises `IndexError` at the `[0]` subscript (caught only by the
generic `except Exception`); otherwise the non-empty text is returned. -/
def extractText : Body → Except ExnClass String
  | .candidatesAbsent => .error .valueErrorExn
  | .candidatesEmpty => .error .otherExn
  | .partsEmpty => .error .otherExn
  | .textAbsent => .error .valueErrorExn
  | .withText s => if s = "" then .error .valueErrorExn else .ok s

/-- A response body whose envelope is missing the expected fields: no
usable candidate, no usable text part, or an empty text. -/
def badEnvelope : Body → Bool
  | .withText s => s == ""
  | _ => true

/-- Status classification of line 103: HTTP 5xx or 429 raises an explicit
`RequestException` labelled transient. -/
def isTransientStatus (st : Nat) : Bool :=
  500 ≤ st || st == 429

/-- Model of `response.raise_for_status()`: raises `HTTPError` for any 4xx
or 5xx status. `HTTPError` is a subclass of `RequestException`, so this
exception is caught by the same handler as the transient errors. -/
def raisesForStatus (st : Nat) : Bool :=
  400 ≤ st

/-- Transient outcome in the sense of the spec: HTTP 5xx, HTTP 429, or a
transport-level error. -/
def isTransientOutcome : AttemptOutcome → Bool
  | .transportError => true
  | .http st _ => isTransientStatus st

/-- Result of the `try` body of one attempt when control leaves the loop
at that attempt: `some trace` when the body returns or raises an exception
handled by an immediately-returning `except` clause, `none` when it raises
a `RequestException` (explicit transient raise for 5xx/429, a transport
error, or the `HTTPError` raised by `raise_for_status` for any other
4xx/5xx status — `HTTPError` is a `RequestException` subclass), which is
handled by the retry logic. -/
def attemptImmediate : AttemptOutcome → Option CallTrace
  | .transportError => none
  | .http st body =>
    if isTransientStatus st then none
    else if raisesForStatus st then none
    else
      match extractText body with
      | .ok s => some ⟨1, [], [], some s⟩
      | .error .valueErrorExn => some ⟨1, [], [.contentError], none⟩
      | .error .otherExn => some ⟨1, [], [], none⟩

/-- The retry loop of `_gemini_api_call` (lines 91-144). `env` gives the
outcome of each attempt (numbered from 0), `B` is `INITIAL_RETRY_SLEEP`,
`attempt` the current index and the last argument the number of loop
iterations left. An attempt that raises a `RequestException` goes to the
retry handler: sleep `B * 2 ^ attempt` and retry while attempts remain,
else notify once (the API-error mail) and return `None`. A `ValueError`
from content extraction notifies (the content-error mail) and returns
`None` immediately; any other exception returns `None` immediately with
no notification. -/
def geminiLoop (env : Nat → AttemptOutcome) (B : Nat) : Nat → Nat → CallTrace
  | _, 0 => ⟨0, [], [], none⟩
  | attempt, remaining + 1 =>
    match attemptImmediate (env attempt) with
    | some t => t
    | none =>
      if remaining = 0 then ⟨1, [], [.apiError], none⟩
      else
        let t := geminiLoop env B (attempt + 1) remaining
        ⟨t.attempts + 1, B * 2 ^ attempt :: t.sleeps, t.notifs, t.result⟩

/-- `MAX_RETRIES` constant of the script. -/
def MAX_RETRIES : Nat := 3

/-- `INITIAL_RETRY_SLEEP` constant of the script (seconds). -/
def INITIAL_RETRY_SLEEP : Nat := 60

/-- Model of `_gemini_api_call` under environment `env`, with the script's
configured constants. -/
def geminiApiCall (env : Nat → AttemptOutcome) : CallTrace :=
  geminiLoop env INITIAL_RETRY_SLEEP 0 MAX_RETRIES

/-- Value stored into one Notion property by the normalization blocks. -/
inductive NotionVal where
  | title (s : String) : NotionVal
  | richText (s : String) : NotionVal
  | date (s : String) : NotionVal
  | url (u : Option String) : NotionVal
deriving DecidableEq

/-- Model of Python `dict.get(key, default)` on an item whose fields are
looked up by name (`none` models an absent key). -/
def pyGet (item : String → Option String) (key : String) (dflt : String) : String :=
  (item key).getD dflt

/-- Whitespace in the sense of Python `str.strip`: space, tab, newline,
carriage return, vertical tab, form feed. -/
def isPySpace (c : Char) : Bool :=
  c = ' ' ∨ c = '\t' ∨ c = '\n' ∨ c = Char.ofNat 13 ∨ c = Char.ofNat 11 ∨ c = Char.ofNat 12

/-- Model of Python `str.strip()`: remove leading and trailing whitespace. -/
def pyStrip (s : String) : String :=
  String.mk (((s.toList.dropWhile isPySpace).reverse.dropWhile isPySpace).reverse)

/-- The link coercion used by every section (for example line 283):
`link if link and link.strip() else None`. A missing, empty, or
whitespace-only link becomes `None`; any other string passes through
unchanged. -/
def linkValue (l : Option String) : Option String :=
  match l with
  | none => none
  | some s => if s ≠ "" ∧ pyStrip s ≠ "" then some s else none

/-- Normalized properties built for one SRE-dynamics item (lines 280-296).
`today` is the current date string used as the `release_date` default. -/
def sreDynamicsProperties (today : String) (item : String → Option String) :
    List (String × NotionVal) :=
  [("title", .title (pyGet item "title" "N/A")),
   ("summary", .richText (pyGet item "summary" "N/A")),
   ("source_company", .richText (pyGet item "source_company" "N/A")),
   ("release_date", .date (pyGet item "release_date" today)),
   ("official_link", .url (linkValue (item "official_link"))),
   ("focus_areas", .richText (pyGet item "focus_areas" "")),
   ("analysis_content", .richText (pyGet item "analysis_content" "N/A"))]

/-- Normalized properties built for one failure-incident item
(lines 335-352). `nowIso` is the current ISO timestamp used as the
`incident_date` default. -/
def failureIncidentProperties (nowIso : String) (item : String → Option String) :
    List (String × NotionVal) :=
  [("incident_title", .title (pyGet item "incident_title" "N/A")),
   ("company", .richText (pyGet item "company" "N/A")),
   ("incident_date", .date (pyGet item "incident_date" nowIso)),
   ("official_link", .url (linkValue (item "official_link"))),
   ("overview", .richText (pyGet item "overview" "N/A")),
   ("root_cause", .richText (pyGet item "root_cause" "N/A")),
   ("timeline", .richText (pyGet item "timeline" "N/A")),
   ("improvement_measures", .richText (pyGet item "improvement_measures" "N/A")),
   ("lessons_learned", .richText (pyGet item "lessons_learned" "N/A"))]

/-- Normalized properties built for one AI-business-opportunity item
(lines 491-507). -/
def aiBusinessProperties (item : String → Option String) :
    List (String × NotionVal) :=
  [("opportunity_title", .title (pyGet item "opportunity_title" "N/A")),
   ("description", .richText (pyGet item "description" "N/A")),
   ("potential_market", .richText (pyGet item "potential_market" "N/A")),
   ("value_proposition", .richText (pyGet item "value_proposition" "N/A")),
   ("trend_reference", .richText (pyGet item "trend_reference" "N/A")),
   ("estimated_effort", .richText (pyGet item "estimated_effort" "N/A")),
   ("trend_link", .url (linkValue (item "trend_link")))]

/-- Python truthiness of a parsed JSON value (`if data`, `if data.get(k)`). -/
def jsonTruthy : Json → Bool
  | .null => false
  | .bool b => b
  | .num lex => !(lex == "0")
  | .str s => !(s == "")
  | .arr l => !l.isEmpty
  | .obj f => !f.isEmpty

/-- Truthiness of an optional section result (`None` is falsy). -/
def pyTruthyOpt : Option Json → Bool
  | none => false
  | some j => jsonTruthy j

/-- Model of `dict.get(key)` on a parsed JSON object. -/
def jsonGet (j : Json) (key : String) : Option Json :=
  match j with
  | .obj fields => List.lookup key fields
  | _ => none

/-- The per-section guard of `main` (for example lines 665-666):
`if data and data.get(key): aggregate[key] = data.get(key)`, with the
aggregate entry otherwise left at its initial empty list. -/
def sectionValue (d : Option Json) (key : String) : Json :=
  match d with
  | none => .arr []
  | some j =>
    if jsonTruthy j then
      match jsonGet j key with
      | some v => if jsonTruthy v then v else .arr []
      | none => .arr []
    else .arr []

/-- The aggregate dictionary `all_report_data` built by `main`. -/
structure ReportAggregate where
  overallSummaryData : Option Json
  sreDynamics : Json
  failureIncidents : Json
  aiNews : Json
  aiLearning : Json
  aiBusinessOpportunity : Json

/-- Result of one `main` run: which section steps were executed in order,
the final aggregate (or `none` if the run aborted after step 1), and
whether the final digest email was sent. -/
structure MainResult where
  executed : List String
  report : Option ReportAggregate
  emailSent : Bool

/-- Model of the orchestration in `main` (lines 650-710). The six
parameters are the values returned by the six section getters (`none`
models a getter returning `None`). Step 1 is mandatory — a falsy summary
aborts the run before any later step; each later step stores its section
list when present and truthy, and every later step runs regardless of the
other steps' outcomes, in declaration order. -/
def mainRun (overall sre fi news learn biz : Option Json) : MainResult :=
  let executed := ["overall"]
  if pyTruthyOpt overall = false then
    ⟨executed, none, false⟩
  else
    let agg : ReportAggregate :=
      ⟨overall, .arr [], .arr [], .arr [], .arr [], .arr []⟩
    let executed := executed ++ ["sre"]
    let agg := { agg with sreDynamics := sectionValue sre "sreDynamics" }
    let executed := executed ++ ["incidents"]
    let agg := { agg with failureIncidents := sectionValue fi "failureIncidents" }
    let executed := executed ++ ["news"]
    let agg := { agg with aiNews := sectionValue news "aiNews" }
    let executed := executed ++ ["learning"]
    let agg := { agg with aiLearning := sectionValue learn "aiLearning" }
    let executed := executed ++ ["business"]
    let agg := { agg with aiBusinessOpportunity := sectionValue biz "aiBusinessOpportunity" }
    ⟨executed, some agg, true⟩

/-! Helper lemmas about `pyFind`, `pyRfind` and the extraction branches. -/

lemma pyFind_append_cons (c : Char) (pre rest : List Char) (h : c ∉ pre) :
    pyFind (pre ++ c :: rest) c = some pre.length := by
  induction pre with
  | nil => simp [pyFind]
  | cons a pre ih =>
    rw [List.mem_cons, not_or] at h
    have hac : ¬ a = c := fun hh => h.1 hh.symm
    show (if a = c then some 0 else (pyFind (pre ++ c :: rest) c).map (· + 1))
        = some (pre.length + 1)
    rw [if_neg hac, ih h.2]
    rfl

lemma pyRfind_eq_none (c : Char) (l : List Char) (h : c ∉ l) : pyRfind l c = none := by
  induction l with
  | nil => rfl
  | cons a l ih =>
    rw [List.mem_cons, not_or] at h
    have hac : ¬ a = c := fun hh => h.1 hh.symm
    simp [pyRfind, ih h.2, if_neg hac]

lemma pyRfind_append (xs post : List Char) (c : Char) (h : c ∉ post) :
    pyRfind (xs ++ post) c = pyRfind xs c := by
  induction xs with
  | nil => simp [pyRfind_eq_none c post h, pyRfind]
  | cons a xs ih => simp [pyRfind, ih]

lemma pyRfind_concat (xs : List Char) (c : Char) : pyRfind (xs ++ [c]) c = some xs.length := by
  induction xs with
  | nil => simp [pyRfind]
  | cons a xs ih => simp [pyRfind, ih]

lemma pyFind_raw_ne (raw : String) (c : Char) (i : Nat) (h : pyFind raw.toList c = some i) :
    raw ≠ "" := by
  intro hr
  subst hr
  rw [show String.toList "" = [] from rfl] at h
  exact Option.noConfusion (h.symm.trans (rfl : pyFind [] c = none)).symm

lemma parseGemini_eq_noJson (raw : String) (hraw : raw ≠ "")
    (h : pyFind raw.toList '\x7b' = none ∨ pyRfind raw.toList '\x7d' = none) :
    parseGeminiResponse raw = .noJsonFound raw (excerptOf raw) := by
  rcases h with h | h
  · have h' : pyFind raw.data '\x7b' = none := h
    cases hg : pyRfind raw.data '\x7d' with
    | none => simp [parseGeminiResponse, if_neg hraw, String.toList, h', hg]
    | some j => simp [parseGeminiResponse, if_neg hraw, String.toList, h', hg]
  · have h' : pyRfind raw.data '\x7d' = none := h
    cases hf : pyFind raw.data '\x7b' with
    | none => simp [parseGeminiResponse, if_neg hraw, String.toList, h', hf]
    | some i => simp [parseGeminiResponse, if_neg hraw, String.toList, h', hf]

lemma parseGemini_eq_malformed (raw : String) (i j : Nat)
    (hi : pyFind raw.toList '\x7b' = some i) (hj : pyRfind raw.toList '\x7d' = some j)
    (hp : Json.parse (String.mk (sliceSpan raw.toList i j)) = none) :
    parseGeminiResponse raw = .malformedJson raw (excerptOf raw) := by
  have hraw := pyFind_raw_ne raw '\x7b' i hi
  have hi' : pyFind raw.data '\x7b' = some i := hi
  have hj' : pyRfind raw.data '\x7d' = some j := hj
  have hp' : Json.parse (String.mk (sliceSpan raw.data i j)) = none := hp
  simp [parseGeminiResponse, if_neg hraw, String.toList, hi', hj', hp']

lemma parseGemini_eq_success (raw : String) (i j : Nat) (v : Json)
    (hi : pyFind raw.toList '\x7b' = some i) (hj : pyRfind raw.toList '\x7d' = some j)
    (hp : Json.parse (String.mk (sliceSpan raw.toList i j)) = some v) :
    parseGeminiResponse raw = .success v := by
  have hraw := pyFind_raw_ne raw '\x7b' i hi
  have hi' : pyFind raw.data '\x7b' = some i := hi
  have hj' : pyRfind raw.data '\x7d' = some j := hj
  have hp' : Json.parse (String.mk (sliceSpan raw.data i j)) = some v := hp
  simp [parseGeminiResponse, if_neg hraw, String.toList, hi', hj', hp']

lemma span_find (pre mid post : List Char) (hpre : '\x7b' ∉ pre) :
    pyFind (pre ++ ('\x7b' :: mid ++ ['\x7d']) ++ post) '\x7b' = some pre.length := by
  have he : pre ++ ('\x7b' :: mid ++ ['\x7d']) ++ post
      = pre ++ '\x7b' :: ((mid ++ ['\x7d']) ++ post) := by
    simp
  rw [he, pyFind_append_cons _ _ _ hpre]

lemma span_rfind (pre mid post : List Char) (hpost : '\x7d' ∉ post) :
    pyRfind (pre ++ ('\x7b' :: mid ++ ['\x7d']) ++ post) '\x7d'
      = some (pre.length + mid.length + 1) := by
  have he : pre ++ ('\x7b' :: mid ++ ['\x7d']) ++ post
      = ((pre ++ '\x7b' :: mid) ++ ['\x7d']) ++ post := by
    simp
  rw [he, pyRfind_append _ _ _ hpost, pyRfind_concat]
  simp [List.length_append, List.length_cons]
  omega

lemma span_slice (pre mid post : List Char) :
    sliceSpan (pre ++ ('\x7b' :: mid ++ ['\x7d']) ++ post) pre.length
        (pre.length + mid.length + 1)
      = '\x7b' :: mid ++ ['\x7d'] := by
  unfold sliceSpan
  have h1 : pre.length + mid.length + 1 + 1 - pre.length = ('\x7b' :: mid ++ ['\x7d']).length := by
    simp [List.length_cons, List.length_append]
    omega
  rw [h1, List.append_assoc, List.drop_left, List.take_left]

/-! Helper lemmas about the retry loop. -/

lemma extractText_ok (body : Body) (s : String) (h : extractText body = .ok s) : s ≠ "" := by
  cases body with
  | candidatesAbsent => exact absurd h (by simp [extractText])
  | candidatesEmpty => exact absurd h (by simp [extractText])
  | partsEmpty => exact absurd h (by simp [extractText])
  | textAbsent => exact absurd h (by simp [extractText])
  | withText str =>
    by_cases hs : str = ""
    · rw [show extractText (.withText str) = if str = "" then .error .valueErrorExn else .ok str
          from rfl, if_pos hs] at h
      exact absurd h (by simp)
    · rw [show extractText (.withText str) = if str = "" then .error .valueErrorExn else .ok str
          from rfl, if_neg hs] at h
      obtain rfl : str = s := by injection h
      exact hs

lemma attemptImmediate_transient (o : AttemptOutcome) (h : isTransientOutcome o = true) :
    attemptImmediate o = none := by
  cases o with
  | transportError => rfl
  | http st body =>
    have hst : isTransientStatus st = true := h
    simp [attemptImmediate, hst]

lemma attemptImmediate_result (o : AttemptOutcome) (t : CallTrace)
    (h : attemptImmediate o = some t) :
    t.result = none ∨ ∃ s, t.result = some s ∧ s ≠ "" := by
  cases o with
  | transportError => exact absurd h (by simp [attemptImmediate])
  | http st body =>
    by_cases h1 : isTransientStatus st = true
    · exact absurd h (by simp [attemptImmediate, h1])
    · by_cases h2 : raisesForStatus st = true
      · exact absurd h (by simp [attemptImmediate, h1, h2])
      · rw [show attemptImmediate (.http st body)
            = (if isTransientStatus st then none
               else if raisesForStatus st then none
               else match extractText body with
                 | .ok s => some ⟨1, [], [], some s⟩
                 | .error .valueErrorExn => some ⟨1, [], [.contentError], none⟩
                 | .error .otherExn => some ⟨1, [], [], none⟩) from rfl,
          if_neg (by simpa using h1), if_neg (by simpa using h2)] at h
        cases hext : extractText body with
        | ok s =>
          rw [hext] at h
          obtain rfl : (⟨1, [], [], some s⟩ : CallTrace) = t := by injection h
          exact Or.inr ⟨s, rfl, extractText_ok body s hext⟩
        | error e =>
          cases e with
          | valueErrorExn =>
            rw [hext] at h
            obtain rfl : (⟨1, [], [.contentError], none⟩ : CallTrace) = t := by injection h
            exact Or.inl rfl
          | otherExn =>
            rw [hext] at h
            obtain rfl : (⟨1, [], [], none⟩ : CallTrace) = t := by injection h
            exact Or.inl rfl

lemma geminiLoop_retry (env : Nat → AttemptOutcome) (B a r : Nat)
    (hr : r ≠ 0) (h : isTransientOutcome (env a) = true) :
    geminiLoop env B a (r + 1) =
      ⟨(geminiLoop env B (a + 1) r).attempts + 1,
       B * 2 ^ a :: (geminiLoop env B (a + 1) r).sleeps,
       (geminiLoop env B (a + 1) r).notifs,
       (geminiLoop env B (a + 1) r).result⟩ := by
  simp [geminiLoop, attemptImmediate_transient (env a) h, hr]

lemma geminiLoop_last (env : Nat → AttemptOutcome) (B a : Nat)
    (h : isTransientOutcome (env a) = true) :
    geminiLoop env B a 1 = ⟨1, [], [.apiError], none⟩ := by
  simp [geminiLoop, attemptImmediate_transient (env a) h]

lemma geminiLoop_result_nonempty (env : Nat → AttemptOutcome) (B : Nat) :
    ∀ (r a : Nat) (s : String), (geminiLoop env B a r).result = some s → s ≠ "" := by
  intro r
  induction r with
  | zero =>
    intro a s h
    exact absurd h (by simp [geminiLoop])
  | succ r ih =>
    intro a s h
    rw [show geminiLoop env B a (r + 1)
        = (match attemptImmediate (env a) with
           | some t => t
           | none =>
             if r = 0 then ⟨1, [], [.apiError], none⟩
             else
               let t := geminiLoop env B (a + 1) r
               ⟨t.attempts + 1, B * 2 ^ a :: t.sleeps, t.notifs, t.result⟩) from rfl] at h
    cases himm : attemptImmediate (env a) with
    | some t =>
      rw [himm] at h
      rcases attemptImmediate_result (env a) t himm with hn | ⟨s2, hs2, hne⟩
      · rw [hn] at h
        exact Option.noConfusion h
      · rw [hs2] at h
        obtain rfl : s2 = s := by injection h
        exact hne
    | none =>
      rw [himm] at h
      by_cases hr : r = 0
      · rw [if_pos hr] at h
        exact Option.noConfusion h
      · rw [if_neg hr] at h
        exact ih (a + 1) s h

/-! Claim theorems. -/

/-- C1. The claim states that a 4xx status other than 429 aborts the call
immediately after exactly 1 attempt, with no retry and no backoff sleep.
The code does otherwise: `raise_for_status()` raises `HTTPError`, a
subclass of `RequestException`, so the 4xx lands in the transient retry
handler. Evaluating the model on a constant HTTP 404 environment shows
3 attempts, backoff sleeps of 60 and 120 seconds, and the final
transient-failure notification — not a 1-attempt fatal abort. -/
theorem http4xx_retried_code_divergence :
    geminiApiCall (fun _ => .http 404 (.withText "ignored"))
      = ⟨3, [60, 120], [.apiError], none⟩
    ∧ (geminiApiCall (fun _ => .http 404 (.withText "ignored"))).attempts ≠ 1
    ∧ (geminiApiCall (fun _ => .http 404 (.withText "ignored"))).sleeps ≠ [] := by
  refine ⟨by decide, by decide, by decide⟩

/-- C2. With `M = 3` attempts and every attempt failing with a transient
outcome (HTTP 5xx, HTTP 429, or a transport error), exactly 3 attempts
are made (no fourth request), the sleeps are exactly `B` and `2B` (none
after the final attempt, total `B + 2B`), the failure notification is sent
exactly once, and the result is the terminal failure `None`. -/
theorem transient_retry_invariant (B : Nat) (env : Nat → AttemptOutcome)
    (h0 : isTransientOutcome (env 0) = true)
    (h1 : isTransientOutcome (env 1) = true)
    (h2 : isTransientOutcome (env 2) = true) :
    geminiLoop env B 0 3 = ⟨3, [B, 2 * B], [.apiError], none⟩
    ∧ [B, 2 * B].sum = B + 2 * B := by
  have e2 : geminiLoop env B 2 1 = ⟨1, [], [.apiError], none⟩ := geminiLoop_last env B 2 h2
  have e1 : geminiLoop env B 1 2 = ⟨2, [B * 2 ^ 1], [.apiError], none⟩ := by
    rw [geminiLoop_retry env B 1 1 (by omega) h1, e2]
  have e0 : geminiLoop env B 0 3 = ⟨3, [B * 2 ^ 0, B * 2 ^ 1], [.apiError], none⟩ := by
    rw [geminiLoop_retry env B 0 2 (by omega) h0, e1]
  constructor
  · rw [e0]
    have hb0 : B * 2 ^ 0 = B := by ring
    have hb1 : B * 2 ^ 1 = 2 * B := by ring
    rw [hb0, hb1]
  · simp

/-- Witness for C2 at a concrete environment: three consecutive HTTP 503
responses with `B = 60`. -/
theorem transient_retry_invariant_witness :
    geminiLoop (fun _ => .http 503 (.withText "x")) 60 0 3
      = ⟨3, [60, 2 * 60], [.apiError], none⟩
    ∧ [60, 2 * 60].sum = 60 + 2 * 60 :=
  transient_retry_invariant 60 (fun _ => .http 503 (.withText "x")) rfl rfl rfl

/-- C6. The send operation returns either a non-empty raw text or the
terminal failure `None` — never an empty string as success; and a
successful-status response whose envelope is missing the expected fields
(no usable candidate, no usable text part, or empty text) on the first
attempt terminates the call immediately: exactly 1 attempt, no backoff
sleep, terminal failure. -/
theorem call_result_guarantee :
    (∀ env : Nat → AttemptOutcome,
      (geminiApiCall env).result = none
      ∨ ∃ s, (geminiApiCall env).result = some s ∧ s ≠ "")
    ∧ (∀ (env : Nat → AttemptOutcome) (st : Nat) (body : Body),
        env 0 = .http st body → st < 400 → badEnvelope body = true →
        (geminiApiCall env).attempts = 1
        ∧ (geminiApiCall env).sleeps = []
        ∧ (geminiApiCall env).result = none) := by
  constructor
  · intro env
    cases h : (geminiApiCall env).result with
    | none => exact Or.inl rfl
    | some s =>
      exact Or.inr ⟨s, rfl, geminiLoop_result_nonempty env INITIAL_RETRY_SLEEP MAX_RETRIES 0 s h⟩
  · intro env st body h0 hst hbad
    have ht : isTransientStatus st = false := by
      simp only [isTransientStatus, Bool.or_eq_false_iff, decide_eq_false_iff_not, beq_eq_false_iff_ne,
        ne_eq]
      omega
    have hrs : raisesForStatus st = false := by
      simp only [raisesForStatus, decide_eq_false_iff_not]
      omega
    have himm : ∃ nf, attemptImmediate (env 0) = some ⟨1, [], nf, none⟩ := by
      rw [h0]
      cases body with
      | candidatesAbsent => exact ⟨[.contentError], by simp [attemptImmediate, ht, hrs, extractText]⟩
      | candidatesEmpty => exact ⟨[], by simp [attemptImmediate, ht, hrs, extractText]⟩
      | partsEmpty => exact ⟨[], by simp [attemptImmediate, ht, hrs, extractText]⟩
      | textAbsent => exact ⟨[.contentError], by simp [attemptImmediate, ht, hrs, extractText]⟩
      | withText s =>
        have hs : s = "" := by simpa [badEnvelope] using hbad
        exact ⟨[.contentError], by simp [attemptImmediate, ht, hrs, extractText, hs]⟩
    obtain ⟨nf, himm⟩ := himm
    have hrun : geminiApiCall env = ⟨1, [], nf, none⟩ := by
      show geminiLoop env INITIAL_RETRY_SLEEP 0 MAX_RETRIES = _
      rw [show MAX_RETRIES = 2 + 1 from rfl,
        show geminiLoop env INITIAL_RETRY_SLEEP 0 (2 + 1)
          = (match attemptImmediate (env 0) with
             | some t => t
             | none =>
               if 2 = 0 then ⟨1, [], [.apiError], none⟩
               else
                 let t := geminiLoop env INITIAL_RETRY_SLEEP 1 2
                 ⟨t.attempts + 1, INITIAL_RETRY_SLEEP * 2 ^ 0 :: t.sleeps, t.notifs, t.result⟩)
          from rfl, himm]
    rw [hrun]
    exact ⟨rfl, rfl, rfl⟩

/-- Witness for C6: a 200-status response whose body has no text part is
fatal after one attempt with no sleep and a terminal-failure result. -/
theorem call_result_guarantee_witness :
    (geminiApiCall (fun _ => .http 200 .textAbsent)).attempts = 1
    ∧ (geminiApiCall (fun _ => .http 200 .textAbsent)).sleeps = []
    ∧ (geminiApiCall (fun _ => .http 200 .textAbsent)).result = none :=
  call_result_guarantee.2 (fun _ => .http 200 .textAbsent) 200 .textAbsent rfl (by omega) rfl

/-- C3 counterexample. The raw text is prose, a balanced valid span, and
prose: it decomposes as the prose prefix (which itself contains an opening
brace), the balanced valid JSON span, and a trailing prose suffix — yet
extraction does not return the parse of that span: slicing from the first
opening brace of the whole text yields an unparseable slice, so the result
is the malformed-JSON failure. -/
theorem extraction_arbitrary_prose_counterexample :
    "\x7bsee \x7b\x7d end" = "\x7bsee " ++ "\x7b\x7d" ++ " end"
    ∧ Json.parse "\x7b\x7d" = some (.obj [])
    ∧ parseGeminiResponse "\x7bsee \x7b\x7d end"
        = .malformedJson "\x7bsee \x7b\x7d end" "\x7bsee \x7b\x7d end"
    ∧ parseGeminiResponse "\x7bsee \x7b\x7d end" ≠ .success (.obj []) :=
  ⟨rfl, rfl, rfl, fun h => ParseResult.noConfusion h⟩

/-- C3 (amended). For every raw text of the form `pre ++ span ++ post`
where `span` is a brace-delimited text that parses as valid JSON, the
prose `pre` contains no opening brace and the prose `post` contains no
closing brace (equivalently: the span is delimited by the first opening
brace and the last closing brace of the text), extraction succeeds and
returns exactly the structure parsed from the span. -/
theorem extraction_of_delimited_span (pre mid post : List Char) (v : Json)
    (hpre : '\x7b' ∉ pre) (hpost : '\x7d' ∉ post)
    (hv : Json.parse (String.mk ('\x7b' :: mid ++ ['\x7d'])) = some v) :
    parseGeminiResponse (String.mk (pre ++ ('\x7b' :: mid ++ ['\x7d']) ++ post))
      = .success v := by
  refine parseGemini_eq_success _ pre.length (pre.length + mid.length + 1) v ?_ ?_ ?_
  · exact span_find pre mid post hpre
  · exact span_rfind pre mid post hpost
  · rw [show (String.mk (pre ++ ('\x7b' :: mid ++ ['\x7d']) ++ post)).toList
        = pre ++ ('\x7b' :: mid ++ ['\x7d']) ++ post from rfl, span_slice]
    exact hv

/-- Witness for C3 (amended) at a concrete raw text with prose on both
sides of the JSON span. -/
theorem extraction_of_delimited_span_witness :
    parseGeminiResponse
        (String.mk (['R', ':', ' '] ++ ('\x7b' :: ['\"', 'a', '\"', ':', '1'] ++ ['\x7d'])
          ++ [' ', 'o', 'k']))
      = .success (.obj [("a", .num "1")]) :=
  extraction_of_delimited_span ['R', ':', ' '] ['\"', 'a', '\"', ':', '1'] [' ', 'o', 'k']
    (.obj [("a", .num "1")]) (by decide) (by decide) rfl

/-- C4 counterexample. The empty raw text has no opening brace and no
closing brace, yet extraction does not return the no-JSON-found failure:
the falsy-input guard returns `None` first, without the failure
notification or the log output of the failure branch. -/
theorem extraction_empty_input_counterexample :
    parseGeminiResponse "" = .noInput
    ∧ parseGeminiResponse "" ≠ .noJsonFound "" "" :=
  ⟨rfl, fun h => ParseResult.noConfusion h⟩

/-- C4 (amended). Extraction is total — every raw text yields one of the
four modelled outcomes; every NON-EMPTY raw text lacking an opening brace
or a closing brace yields the no-JSON-found failure (the empty text takes
the falsy-input early return instead); and every raw text whose sliced
first-brace-to-last-brace span fails to parse yields the malformed-JSON
failure. -/
theorem extraction_total_and_failure_classes :
    (∀ raw : String,
      parseGeminiResponse raw = .noInput
      ∨ (∃ v, parseGeminiResponse raw = .success v)
      ∨ parseGeminiResponse raw = .noJsonFound raw (excerptOf raw)
      ∨ parseGeminiResponse raw = .malformedJson raw (excerptOf raw))
    ∧ (∀ raw : String, raw ≠ "" →
        (pyFind raw.toList '\x7b' = none ∨ pyRfind raw.toList '\x7d' = none) →
        parseGeminiResponse raw = .noJsonFound raw (excerptOf raw))
    ∧ (∀ (raw : String) (i j : Nat),
        pyFind raw.toList '\x7b' = some i → pyRfind raw.toList '\x7d' = some j →
        Json.parse (String.mk (sliceSpan raw.toList i j)) = none →
        parseGeminiResponse raw = .malformedJson raw (excerptOf raw)) := by
  refine ⟨?_, ?_, ?_⟩
  · intro raw
    by_cases hraw : raw = ""
    · subst hraw
      exact Or.inl rfl
    · cases hf : pyFind raw.toList '\x7b' with
      | none => exact Or.inr (Or.inr (Or.inl (parseGemini_eq_noJson raw hraw (Or.inl hf))))
      | some i =>
        cases hg : pyRfind raw.toList '\x7d' with
        | none => exact Or.inr (Or.inr (Or.inl (parseGemini_eq_noJson raw hraw (Or.inr hg))))
        | some j =>
          cases hp : Json.parse (String.mk (sliceSpan raw.toList i j)) with
          | none =>
            exact Or.inr (Or.inr (Or.inr (parseGemini_eq_malformed raw i j hf hg hp)))
          | some v =>
            exact Or.inr (Or.inl ⟨v, parseGemini_eq_success raw i j v hf hg hp⟩)
  · intro raw h1 h2
    exact parseGemini_eq_noJson raw h1 h2
  · intro raw i j h1 h2 h3
    exact parseGemini_eq_malformed raw i j h1 h2 h3

/-- Witness for C4 (amended): a non-empty brace-free text yields the
no-JSON-found failure carrying the raw text. -/
theorem extraction_total_and_failure_classes_witness :
    parseGeminiResponse "abc" = .noJsonFound "abc" "abc" :=
  extraction_total_and_failure_classes.2.1 "abc" (by decide) (Or.inl rfl)

/-- C9. Whenever the sliced span fails to parse, extraction returns the
malformed-JSON failure and the text printed in full to the log is the
original raw text, verbatim and unmodified (the notification email
additionally carries the first-2000-character excerpt). -/
theorem malformed_preserves_raw_text (raw : String) (i j : Nat)
    (hi : pyFind raw.toList '\x7b' = some i) (hj : pyRfind raw.toList '\x7d' = some j)
    (hp : Json.parse (String.mk (sliceSpan raw.toList i j)) = none) :
    parseGeminiResponse raw = .malformedJson raw (excerptOf raw)
    ∧ ∀ logText excerpt,
        parseGeminiResponse raw = .malformedJson logText excerpt → logText = raw := by
  have h := parseGemini_eq_malformed raw i j hi hj hp
  refine ⟨h, ?_⟩
  intro logText excerpt he
  rw [h] at he
  injection he with h1 h2
  exact h1.symm

/-- Witness for C9 at a concrete unparseable raw text. -/
theorem malformed_preserves_raw_text_witness :
    parseGeminiResponse "\x7bnope\x7d" = .malformedJson "\x7bnope\x7d" "\x7bnope\x7d" :=
  (malformed_preserves_raw_text "\x7bnope\x7d" 0 5 rfl rfl rfl).1

/-- C10. A raw text containing both braces but with its last closing brace
before its first opening brace yields the malformed-JSON failure (the
Python slice is empty and fails to parse), not no-JSON-found; and the
no-JSON-found branch is taken only when one of the two brace characters is
entirely absent. -/
theorem reversed_braces_malformed :
    (∀ (raw : String) (i j : Nat),
      pyFind raw.toList '\x7b' = some i → pyRfind raw.toList '\x7d' = some j → j < i →
      parseGeminiResponse raw = .malformedJson raw (excerptOf raw))
    ∧ (∀ raw logText excerpt : String,
        parseGeminiResponse raw = .noJsonFound logText excerpt →
        pyFind raw.toList '\x7b' = none ∨ pyRfind raw.toList '\x7d' = none) := by
  constructor
  · intro raw i j hi hj hij
    apply parseGemini_eq_malformed raw i j hi hj
    have h0 : sliceSpan raw.toList i j = [] := by
      unfold sliceSpan
      have hz : j + 1 - i = 0 := by omega
      rw [hz, List.take_zero]
    rw [h0]
    rfl
  · intro raw logText excerpt h
    by_cases hraw : raw = ""
    · subst hraw
      exact ParseResult.noConfusion h
    · cases hf : pyFind raw.toList '\x7b' with
      | none => exact Or.inl rfl
      | some i =>
        cases hg : pyRfind raw.toList '\x7d' with
        | none => exact Or.inr rfl
        | some j =>
          exfalso
          cases hp : Json.parse (String.mk (sliceSpan raw.toList i j)) with
          | none =>
            rw [parseGemini_eq_malformed raw i j hf hg hp] at h
            exact ParseResult.noConfusion h
          | some v =>
            rw [parseGemini_eq_success raw i j v hf hg hp] at h
            exact ParseResult.noConfusion h

/-- Witness for C10 at the raw text whose only closing brace precedes its
only opening brace. -/
theorem reversed_braces_malformed_witness :
    parseGeminiResponse "\x7d \x7b" = .malformedJson "\x7d \x7b" "\x7d \x7b" :=
  reversed_braces_malformed.1 "\x7d \x7b" 2 0 rfl rfl (by omega)

/-- Boolean test that the first list begins the second one. -/
def leadsWith : List Char → List Char → Bool
  | [], _ => true
  | _ :: _, [] => false
  | p :: ps, c :: cs => p == c && leadsWith ps cs

/-- Spec-side notion used for comparison in C5: per the spec wording, a
well-formed link is a non-empty string beginning with a URL scheme (the
formatter in the source tests for a leading http scheme; normalization
itself performs no such check). -/
def specHasUrlScheme (s : String) : Bool :=
  leadsWith "http://".toList s.toList || leadsWith "https://".toList s.toList

/-- C5 counterexample. An item whose link field is the non-empty string
without any URL scheme is normalized with that string passed through
unchanged — it is not coerced to the absent-link marker, contradicting the
claimed scheme coercion. -/
theorem link_scheme_not_enforced_counterexample :
    List.lookup "official_link"
        (sreDynamicsProperties "2026-10-12"
          (fun k => if k = "official_link" then some "not-a-url" else none))
      = some (.url (some "not-a-url"))
    ∧ specHasUrlScheme "not-a-url" = false
    ∧ (NotionVal.url (some "not-a-url") ≠ .url none) := by
  refine ⟨by decide, by decide, by decide⟩

/-- C5 (amended). A normalized record's link field is `url` of exactly the
coerced value: `None` for a missing, empty, or whitespace-only link, and
otherwise the item's original string passed through unchanged, whether or
not it begins with a URL scheme; it is never the empty string. -/
theorem normalized_link_passthrough :
    ∀ (today : String) (item : String → Option String),
      List.lookup "official_link" (sreDynamicsProperties today item)
        = some (.url (linkValue (item "official_link")))
      ∧ List.lookup "trend_link" (aiBusinessProperties item)
        = some (.url (linkValue (item "trend_link")))
      ∧ ∀ l : Option String,
          linkValue l ≠ some "" ∧ (linkValue l = none ∨ linkValue l = l) := by
  intro today item
  refine ⟨rfl, rfl, ?_⟩
  intro l
  cases l with
  | none => exact ⟨fun h => Option.noConfusion h, Or.inl rfl⟩
  | some s =>
    by_cases h : s ≠ "" ∧ pyStrip s ≠ ""
    · constructor
      · rw [show linkValue (some s) = if s ≠ "" ∧ pyStrip s ≠ "" then some s else none from rfl,
          if_pos h]
        intro hc
        injection hc with hc
        exact h.1 hc
      · right
        rw [show linkValue (some s) = if s ≠ "" ∧ pyStrip s ≠ "" then some s else none from rfl,
          if_pos h]
    · constructor
      · rw [show linkValue (some s) = if s ≠ "" ∧ pyStrip s ≠ "" then some s else none from rfl,
          if_neg h]
        exact fun hc => Option.noConfusion hc
      · left
        rw [show linkValue (some s) = if s ≠ "" ∧ pyStrip s ≠ "" then some s else none from rfl,
          if_neg h]

/-- Witness for C5 (amended): a present, non-blank link passes through
unchanged into the record. -/
theorem normalized_link_passthrough_witness :
    List.lookup "official_link"
        (sreDynamicsProperties "2026-01-01" (fun _ => some "https://e.com"))
      = some (.url (some "https://e.com")) :=
  (normalized_link_passthrough "2026-01-01" (fun _ => some "https://e.com")).1

/-- C8 counterexample. For an item with every field absent, the normalized
SRE-dynamics record holds the empty string — not the sentinel "N/A" — for
the absent `focus_areas` field (and similarly the date and link fields
default to the current date and the absent marker, not to "N/A"). -/
theorem normalization_na_counterexample :
    (fun _ => (none : Option String)) "focus_areas" = none
    ∧ List.lookup "focus_areas"
        (sreDynamicsProperties "2026-10-12" (fun _ => none))
      = some (.richText "")
    ∧ (NotionVal.richText "" ≠ .richText "N/A") := by
  refine ⟨rfl, by decide, by decide⟩

/-- C8 (amended). Every key of the fixed section schema is present in the
normalized record (never an absent key); fields absent from the item get
their per-field default: the sentinel "N/A" for the plain text fields, but
the empty string for `focus_areas`, the current date/timestamp for the
date fields, and the absent marker for the link fields. -/
theorem normalization_schema_defaults :
    ∀ (today nowIso : String) (item : String → Option String),
      (sreDynamicsProperties today item).map Prod.fst
        = ["title", "summary", "source_company", "release_date", "official_link",
           "focus_areas", "analysis_content"]
      ∧ (failureIncidentProperties nowIso item).map Prod.fst
        = ["incident_title", "company", "incident_date", "official_link", "overview",
           "root_cause", "timeline", "improvement_measures", "lessons_learned"]
      ∧ (item "summary" = none →
          List.lookup "summary" (sreDynamicsProperties today item) = some (.richText "N/A"))
      ∧ (item "focus_areas" = none →
          List.lookup "focus_areas" (sreDynamicsProperties today item) = some (.richText ""))
      ∧ (item "release_date" = none →
          List.lookup "release_date" (sreDynamicsProperties today item) = some (.date today))
      ∧ (item "official_link" = none →
          List.lookup "official_link" (sreDynamicsProperties today item) = some (.url none))
      ∧ (item "root_cause" = none →
          List.lookup "root_cause" (failureIncidentProperties nowIso item)
            = some (.richText "N/A"))
      ∧ (item "incident_date" = none →
          List.lookup "incident_date" (failureIncidentProperties nowIso item)
            = some (.date nowIso)) := by
  intro today nowIso item
  refine ⟨rfl, rfl, ?_, ?_, ?_, ?_, ?_, ?_⟩
  all_goals
    intro h
    simp [sreDynamicsProperties, failureIncidentProperties, pyGet, linkValue, h, List.lookup]

/-- Witness for C8 (amended) at the item with every field absent. -/
theorem normalization_schema_defaults_witness :
    List.lookup "summary" (sreDynamicsProperties "2026-10-12" (fun _ => none))
      = some (.richText "N/A")
    ∧ List.lookup "root_cause" (failureIncidentProperties "2026-10-12T00:00:00Z" (fun _ => none))
      = some (.richText "N/A")
    ∧ List.lookup "incident_date"
        (failureIncidentProperties "2026-10-12T00:00:00Z" (fun _ => none))
      = some (.date "2026-10-12T00:00:00Z") := by
  have h := normalization_schema_defaults "2026-10-12" "2026-10-12T00:00:00Z" (fun _ => none)
  exact ⟨h.2.2.1 rfl, h.2.2.2.2.2.2.1 rfl, h.2.2.2.2.2.2.2 rfl⟩

/-- C7. If the mandatory first section (overall summary) fails, the
orchestrator aborts the whole run after step 1: no later section runs, no
report is produced and no digest email is sent. If the first section
succeeds, all remaining sections run in the fixed declaration order and
the digest email is sent; a failed later section contributes the empty
list to the aggregate without stopping the others. -/
theorem orchestrator_first_section_gate :
    ∀ overall sre fi news learn biz : Option Json,
      (pyTruthyOpt overall = false →
        mainRun overall sre fi news learn biz = ⟨["overall"], none, false⟩)
      ∧ (pyTruthyOpt overall = true →
          (mainRun overall sre fi news learn biz).executed
            = ["overall", "sre", "incidents", "news", "learning", "business"]
          ∧ (mainRun overall sre fi news learn biz).emailSent = true
          ∧ ∃ agg, (mainRun overall sre fi news learn biz).report = some agg
              ∧ (sre = none → agg.sreDynamics = .arr [])
              ∧ (fi = none → agg.failureIncidents = .arr [])
              ∧ (news = none → agg.aiNews = .arr [])
              ∧ (learn = none → agg.aiLearning = .arr [])
              ∧ (biz = none → agg.aiBusinessOpportunity = .arr [])) := by
  intro overall sre fi news learn biz
  constructor
  · intro h
    simp [mainRun, h]
  · intro h
    refine ⟨by simp [mainRun, h], by simp [mainRun, h],
      ⟨⟨overall, sectionValue sre "sreDynamics", sectionValue fi "failureIncidents",
        sectionValue news "aiNews", sectionValue learn "aiLearning",
        sectionValue biz "aiBusinessOpportunity"⟩,
       by simp [mainRun, h], ?_, ?_, ?_, ?_, ?_⟩⟩
    all_goals
      intro hx
      subst hx
      rfl

/-- Witness for C7: a truthy first section with every later getter failing
runs all six steps in order and sends the email. -/
theorem orchestrator_first_section_gate_witness :
    (mainRun (some (.obj [("title", .str "x")])) none none none none none).executed
      = ["overall", "sre", "incidents", "news", "learning", "business"]
    ∧ (mainRun (some (.obj [("title", .str "x")])) none none none none none).emailSent
      = true := by
  have h := (orchestrator_first_section_gate
    (some (.obj [("title", .str "x")])) none none none none none).2 rfl
  exact ⟨h.1, h.2.1⟩

end SreReport
